import Mathlib

/-!
Formal model of senlin's Neutron LBaaS driver
(senlin/drivers/openstack/lbaas.py), the v1 cluster API controller
(senlin/api/openstack/v1/clusters.py), and the lock manager described in
the design document.

The Python code is shallowly embedded: dictionaries become structures or
association lists, machine integers become Nat/Int, exceptions become
Except, and backend nondeterminism (timing of load-balancer readiness,
backend call failures) is supplied by an explicit environment.
-/

namespace Senlin

/-! ## Load-balancer readiness polling: LoadBalancerDriver._wait_for_lb_ready

The Python loop polls the backend:

    waited = 0
    while waited < timeout:
        lb = self.nc().loadbalancer_get(lb_id)
        if lb is None:
            lb_ready = ignore_not_found
        else:
            lb_ready = ((lb.provisioning_status == 'ACTIVE') and
                        (lb.operating_status == 'ONLINE'))
        if lb_ready is True:
            return True
        eventlet.sleep(2)
        waited += 2
    return False

The backend is modelled by a poll schedule: `poll w` is what
loadbalancer_get returns when called with accumulated wait `w`.
-/

structure LoadBalancer where
  provisioning_status : String
  operating_status : String
deriving DecidableEq, Repr

/-- Readiness of one poll result: None is acceptable iff ignore_not_found,
otherwise the load balancer must be ACTIVE and ONLINE. -/
def lbPollReady (lb : Option LoadBalancer) (ignore_not_found : Bool) : Bool :=
  match lb with
  | none => ignore_not_found
  | some l => l.provisioning_status == "ACTIVE" && l.operating_status == "ONLINE"

/-- The polling loop of _wait_for_lb_ready, entered with accumulated wait
`waited`. -/
def wait_for_lb_ready_from (poll : Nat → Option LoadBalancer) (timeout : Nat)
    (ignore_not_found : Bool) (waited : Nat) : Bool :=
  if waited < timeout then
    if lbPollReady (poll waited) ignore_not_found then true
    else wait_for_lb_ready_from poll timeout ignore_not_found (waited + 2)
  else false
termination_by timeout - waited
decreasing_by simp_wf; omega

/-- LoadBalancerDriver._wait_for_lb_ready (waited starts at 0). -/
def wait_for_lb_ready (poll : Nat → Option LoadBalancer) (timeout : Nat)
    (ignore_not_found : Bool) : Bool :=
  wait_for_lb_ready_from poll timeout ignore_not_found 0

/-- Number of backend polls (loadbalancer_get calls) the loop performs,
entered with accumulated wait `waited`. -/
def wait_polls_from (poll : Nat → Option LoadBalancer) (timeout : Nat)
    (ignore_not_found : Bool) (waited : Nat) : Nat :=
  if waited < timeout then
    if lbPollReady (poll waited) ignore_not_found then 1
    else 1 + wait_polls_from poll timeout ignore_not_found (waited + 2)
  else 0
termination_by timeout - waited
decreasing_by simp_wf; omega

/-- Number of backend polls of a full _wait_for_lb_ready call. -/
def wait_polls (poll : Nat → Option LoadBalancer) (timeout : Nat)
    (ignore_not_found : Bool) : Nat :=
  wait_polls_from poll timeout ignore_not_found 0

/-! ## The LBaaS provisioning workflow: lb_create / lb_delete

The driver talks to a Neutron client (`self.nc()`). Backend state is
modelled as lists of live resource ids plus an event trace; backend call
failures (exceptions) and readiness timing are supplied by an environment.
The Neutron client itself (senlin/drivers/openstack/neutron_v2.py) is not
part of the sources; its delete calls are modelled from the spec, see the
doc comments below.
-/

/-- The backend calls lb_create / lb_delete can issue. -/
inductive LbOp
  | createLB
  | createListener
  | createPool
  | deleteHM
  | deletePool
  | deleteListener
  | deleteLB
deriving DecidableEq, Repr

/-- One observable event of a driver workflow: a backend create/delete call
on a resource id, or one _wait_for_lb_ready call with its arguments and
outcome. -/
inductive LbEvent
  | call (op : LbOp) (id : Nat)
  | wait (lbId : Nat) (timeout : Nat) (ignore_not_found : Bool) (outcome : Bool)
deriving DecidableEq, Repr

/-- Environment: which backend calls raise an exception, and the timing
oracle deciding whether the n-th readiness wait on a live load balancer
succeeds within its timeout. -/
structure LbEnv where
  opFails : LbOp → Bool
  waitReady : Nat → Bool

/-- Backend state as the driver sees it: fresh-id counter, live resource
ids per kind, number of waits performed so far (index into the timing
oracle), and the event trace. -/
structure LbState where
  nextId : Nat
  lbs : List Nat
  listeners : List Nat
  pools : List Nat
  hms : List Nat
  waitCount : Nat
  trace : List LbEvent
deriving DecidableEq, Repr

def LbState.init : LbState :=
  { nextId := 0
    lbs := []
    listeners := []
    pools := []
    hms := []
    waitCount := 0
    trace := [] }

/-- True when the backend holds no live LBaaS resource at all. -/
def LbState.netEmpty (st : LbState) : Bool :=
  st.lbs.isEmpty && st.listeners.isEmpty && st.pools.isEmpty && st.hms.isEmpty

/-- nc().loadbalancer_create(subnet, address, admin_state_up): allocates a
fresh id and registers the load balancer. -/
def loadbalancer_create (env : LbEnv) (subnet : String)
    (address : Option String) (admin_state_up : Bool) (st : LbState) :
    Except String (Nat × LbState) :=
  if env.opFails .createLB then .error "loadbalancer_create failed"
  else
    .ok (st.nextId,
      { st with
          nextId := st.nextId + 1
          lbs := st.lbs ++ [st.nextId]
          trace := st.trace ++ [.call .createLB st.nextId] })

/-- nc().listener_create(lb_id, protocol, protocol_port, connection_limit,
admin_state_up). -/
def listener_create (env : LbEnv) (lb_id : Nat) (protocol : String)
    (protocol_port : Nat) (connection_limit : Option Nat)
    (admin_state_up : Bool) (st : LbState) : Except String (Nat × LbState) :=
  if env.opFails .createListener then .error "listener_create failed"
  else
    .ok (st.nextId,
      { st with
          nextId := st.nextId + 1
          listeners := st.listeners ++ [st.nextId]
          trace := st.trace ++ [.call .createListener st.nextId] })

/-- nc().pool_create(lb_method, listener_id, protocol, admin_state_up). -/
def pool_create (env : LbEnv) (lb_method : String) (listener_id : Nat)
    (protocol : String) (admin_state_up : Bool) (st : LbState) :
    Except String (Nat × LbState) :=
  if env.opFails .createPool then .error "pool_create failed"
  else
    .ok (st.nextId,
      { st with
          nextId := st.nextId + 1
          pools := st.pools ++ [st.nextId]
          trace := st.trace ++ [.call .createPool st.nextId] })

/-- Modelled from the spec: the Neutron client (neutron_v2.py, not under
the sources) performs the backend delete; per the spec, deprovisioning an
already-absent resource succeeds as a no-op, so deletion is List.erase.
The environment decides whether the call raises a backend exception. -/
def healthmonitor_delete (env : LbEnv) (hm_id : Nat) (st : LbState) :
    Except String LbState :=
  if env.opFails .deleteHM then .error "healthmonitor_delete failed"
  else
    .ok { st with
            hms := st.hms.erase hm_id
            trace := st.trace ++ [.call .deleteHM hm_id] }

/-- Modelled from the spec: see healthmonitor_delete. -/
def pool_delete (env : LbEnv) (pool_id : Nat) (st : LbState) :
    Except String LbState :=
  if env.opFails .deletePool then .error "pool_delete failed"
  else
    .ok { st with
            pools := st.pools.erase pool_id
            trace := st.trace ++ [.call .deletePool pool_id] }

/-- Modelled from the spec: see healthmonitor_delete. -/
def listener_delete (env : LbEnv) (listener_id : Nat) (st : LbState) :
    Except String LbState :=
  if env.opFails .deleteListener then .error "listener_delete failed"
  else
    .ok { st with
            listeners := st.listeners.erase listener_id
            trace := st.trace ++ [.call .deleteListener listener_id] }

/-- Modelled from the spec: see healthmonitor_delete. -/
def loadbalancer_delete (env : LbEnv) (lb_id : Nat) (st : LbState) :
    Except String LbState :=
  if env.opFails .deleteLB then .error "loadbalancer_delete failed"
  else
    .ok { st with
            lbs := st.lbs.erase lb_id
            trace := st.trace ++ [.call .deleteLB lb_id] }

/-- One _wait_for_lb_ready call as issued from lb_create / lb_delete.
When the load balancer is absent from the backend every poll returns None,
so by lemma wait_absent the outcome is ignore_not_found (for a positive
timeout); when it is live, the outcome is the environment's timing oracle,
indexed by the number of waits already performed. -/
def waitStep (env : LbEnv) (lb_id : Nat) (timeout : Nat)
    (ignore_not_found : Bool) (st : LbState) : Bool × LbState :=
  let outcome :=
    if st.lbs.contains lb_id then
      env.waitReady st.waitCount && decide (0 < timeout)
    else
      ignore_not_found && decide (0 < timeout)
  (outcome,
    { st with
        waitCount := st.waitCount + 1
        trace := st.trace ++ [.wait lb_id timeout ignore_not_found outcome] })

/-- The kwargs dict passed to lb_delete; in lb_create it is the growing
`result` dict. -/
structure LbKwargs where
  loadbalancer : Option Nat := none
  healthmonitor : Option Nat := none
  pool : Option Nat := none
  listener : Option Nat := none
deriving DecidableEq, Repr

/-- Return value of lb_create: failure is Python's (False, msg), success is
(True, result). -/
inductive LbCreateRet
  | failure (msg : String)
  | success (result : LbKwargs)
deriving DecidableEq, Repr

/-- LoadBalancerDriver.lb_delete. Deletes healthmonitor, pool, listener
(each when present in kwargs), then the loadbalancer, waiting on the
load balancer after each step. The final wait is Python's
`self._wait_for_lb_ready(lb_id, True)`: True binds positionally to the
timeout parameter (as the int 1), so ignore_not_found keeps its default
False. Returns (True, 'LB deletion succeeded') unless a backend call
raises. -/
def lb_delete (env : LbEnv) (kwargs : LbKwargs) (st : LbState) :
    Except String ((Bool × String) × LbState) := do
  match kwargs.loadbalancer with
  | none => .error "KeyError: loadbalancer"
  | some lb_id => do
    let st ← match kwargs.healthmonitor with
      | some hm_id => do
          let st ← healthmonitor_delete env hm_id st
          pure (waitStep env lb_id 60 false st).2
      | none => pure st
    let st ← match kwargs.pool with
      | some pool_id => do
          let st ← pool_delete env pool_id st
          pure (waitStep env lb_id 60 false st).2
      | none => pure st
    let st ← match kwargs.listener with
      | some listener_id => do
          let st ← listener_delete env listener_id st
          pure (waitStep env lb_id 60 false st).2
      | none => pure st
    let st ← loadbalancer_delete env lb_id st
    let st := (waitStep env lb_id 1 false st).2
    return ((true, "LB deletion succeeded"), st)

/-- Properties of the VIP dict used by lb_create. -/
structure VipSpec where
  subnet : String
  address : Option String
  admin_state_up : Bool
  protocol : String
  protocol_port : Nat
  connection_limit : Option Nat
deriving DecidableEq, Repr

/-- Properties of the pool dict used by lb_create. -/
structure PoolSpec where
  lb_method : String
  protocol : String
  admin_state_up : Bool
deriving DecidableEq, Repr

/-- LoadBalancerDriver.lb_create: create loadbalancer, listener, pool in
order, waiting on the load balancer after each step; on a failed wait the
_cleanup helper calls lb_delete on the resources recorded so far (without
catching exceptions) and (False, msg) is returned. -/
def lb_create (env : LbEnv) (vip : VipSpec) (pool : PoolSpec) (st : LbState) :
    Except String (LbCreateRet × LbState) := do
  let (lb_id, st) ← loadbalancer_create env vip.subnet vip.address
      vip.admin_state_up st
  let result : LbKwargs := { loadbalancer := some lb_id }
  let (res, st) := waitStep env lb_id 60 false st
  if res = false then
    let msg := "Failed in creating load balancer (" ++ toString lb_id ++ ")."
    let (_, st) ← lb_delete env result st
    return (.failure msg, st)
  else
    let (listener_id, st) ← listener_create env lb_id vip.protocol
        vip.protocol_port vip.connection_limit vip.admin_state_up st
    let result := { result with listener := some listener_id }
    let (res, st) := waitStep env lb_id 60 false st
    if res = false then
      let msg := "Failed in creating listener (" ++ toString listener_id ++ ")."
      let (_, st) ← lb_delete env result st
      return (.failure msg, st)
    else
      let (pool_id, st) ← pool_create env pool.lb_method listener_id
          pool.protocol pool.admin_state_up st
      let result := { result with pool := some pool_id }
      let (res, st) := waitStep env lb_id 60 false st
      if res = false then
        let msg := "Failed in creating pool (" ++ toString pool_id ++ ")."
        let (_, st) ← lb_delete env result st
        return (.failure msg, st)
      else
        return (.success result, st)

/-! ### Trace observations used by the rollback claims -/

/-- The resource kind a backend call touches. -/
inductive ResKind
  | lb
  | listener
  | pool
  | hm
deriving DecidableEq, Repr

def LbOp.resKind : LbOp → ResKind
  | .createLB => .lb
  | .deleteLB => .lb
  | .createListener => .listener
  | .deleteListener => .listener
  | .createPool => .pool
  | .deletePool => .pool
  | .deleteHM => .hm

def LbOp.isCreate : LbOp → Bool
  | .createLB => true
  | .createListener => true
  | .createPool => true
  | _ => false

/-- The (kind, id) list of resources created along a trace, in order. -/
def createdResources (tr : List LbEvent) : List (ResKind × Nat) :=
  tr.filterMap fun e => match e with
    | .call op i => if op.isCreate then some (op.resKind, i) else none
    | _ => none

/-- The (kind, id) list of resources deleted along a trace, in order. -/
def deletedResources (tr : List LbEvent) : List (ResKind × Nat) :=
  tr.filterMap fun e => match e with
    | .call op i => if op.isCreate then none else some (op.resKind, i)
    | _ => none

/-! ### Fixtures and observation helpers for the workflow claims -/

/-- A lb_create run that raised an exception to its caller. -/
def raisedException : Except String (LbCreateRet × LbState) → Bool
  | .error _ => true
  | .ok _ => false

/-- A lb_create run that returned Python's (False, message) pair. -/
def returnedFailurePair : Except String (LbCreateRet × LbState) → Bool
  | .ok (.failure _, _) => true
  | _ => false

def vip0 : VipSpec :=
  { subnet := "subnet1"
    address := none
    admin_state_up := true
    protocol := "HTTP"
    protocol_port := 80
    connection_limit := none }

def pool0 : PoolSpec :=
  { lb_method := "ROUND_ROBIN"
    protocol := "HTTP"
    admin_state_up := true }

/-- Environment where no backend call raises and every wait succeeds. -/
def envOk : LbEnv :=
  { opFails := fun _ => false
    waitReady := fun _ => true }

/-- Environment where no backend call raises and exactly the k-th wait
times out. -/
def envFailAt (k : Nat) : LbEnv :=
  { opFails := fun _ => false
    waitReady := fun n => !(n == k) }

/-- Environment where the first wait times out and the rollback's
loadbalancer_delete raises a backend exception. -/
def envRollbackFails : LbEnv :=
  { opFails := fun o => o == LbOp.deleteLB
    waitReady := fun _ => false }

/-! ## Cluster API controller: senlin/api/openstack/v1/clusters.py

Request bodies are Python dicts; the value under one action key is
modelled as a structure of the typed optional fields the controller reads,
plus isMap recording whether the value is a dict at all (the isinstance
checks and .get attribute accesses depend on it). RPC results are supplied
by an environment mapping each call to the action id found in its
response; the jsonschema validation of the request objects (the request
classes and jsonschema library are outside the sources) is an oracle
keyed by request-class name. -/

/-- Exceptions the controller can raise: webob HTTPBadRequest,
senlin_exc.InvalidParameter (a different exception class), and an uncaught
Python AttributeError from calling .get on a non-dict. -/
inductive ApiErr
  | badRequest (msg : String)
  | invalidParameter (name : String)
  | attributeError
deriving DecidableEq, Repr

/-- The value of a 'nodes' entry in an action body: a JSON list, a JSON
mapping, or some other non-list non-mapping value. -/
inductive PyNodes
  | list (items : List String)
  | map (pairs : List (String × String))
  | other
deriving DecidableEq, Repr

/-- The value under one action key of a cluster-action request body. -/
structure ActionData where
  isMap : Bool := true
  nodes : Option PyNodes := none
  count : Option Int := none
  adjustment_type : Option String := none
  number : Option Int := none
  min_size : Option Int := none
  max_size : Option Int := none
  min_step : Option Int := none
  strict : Option Bool := none
  policy_id : Option String := none
  enabled : Option Bool := none
deriving DecidableEq, Repr

/-- The RPC calls the controller can issue, with the arguments it passes. -/
inductive RpcCall
  | clusterCreate2
  | clusterUpdate2 (cid : String)
  | clusterDelete (cid : String)
  | addNodes (cid : String) (nodes : List String)
  | delNodes (cid : String) (nodes : List String)
  | clusterScaleOut (cid : String) (count : Option Int)
  | clusterScaleIn (cid : String) (count : Option Int)
  | clusterResize (cid : String) (adjType : Option String) (number : Option Int)
      (minSize : Option Int) (maxSize : Option Int) (minStep : Option Int)
      (strict : Bool)
  | clusterPolicyAttach (cid : String) (pid : String) (enabled : Option Bool)
  | clusterPolicyDetach (cid : String) (pid : String)
  | clusterPolicyUpdate (cid : String) (pid : String) (enabled : Option Bool)
  | clusterCheck (cid : String)
  | clusterRecover (cid : String)
  | clusterReplaceNodes (cid : String) (nodes : List (String × String))
deriving DecidableEq, Repr

/-- What the caller sees of a successful controller response; only the
'location' entry is modelled. -/
structure ApiResp where
  location : String
deriving DecidableEq, Repr

/-- RPC layer and validation environment. rpcAction gives the action id in
the response of each RPC call; schemaOk is the jsonschema validation
oracle. Modelled from the spec: field-level schema validation of inbound
request bodies is an external collaborator. -/
structure ApiEnv where
  rpcAction : RpcCall → String
  schemaOk : String → Bool

/-- A controller outcome: the RPC calls made, and the response or the
exception raised. -/
abbrev ApiOutcome := List RpcCall × Except ApiErr ApiResp

/-- Build the success response: res.update(location='/actions/<action>'),
with the action id taken from the RPC response. -/
def locResp (env : ApiEnv) (c : RpcCall) : ApiOutcome :=
  ([c], .ok { location := "/actions/" ++ env.rpcAction c })

/-- Outcome observation: an HTTPBadRequest was raised and no RPC call was
made. -/
def isBadRequestOutcome : ApiOutcome → Bool
  | ([], .error (.badRequest _)) => true
  | _ => false

/-- ClusterController.SUPPORTED_ACTIONS. -/
def SUPPORTED_ACTIONS : List String :=
  ["add_nodes", "del_nodes", "scale_out", "scale_in", "resize",
   "policy_attach", "policy_detach", "policy_update",
   "check", "recover", "replace_nodes"]

/-- Modelled from the spec and the API constants: consts.ADJUSTMENT_TYPES
(senlin/common/consts.py is not under the sources) is the closed set of
recognized resize adjustment types. -/
def ADJUSTMENT_TYPES : List String :=
  ["EXACT_CAPACITY", "CHANGE_IN_CAPACITY", "CHANGE_IN_PERCENTAGE"]

/-- Modelled: utils.parse_int_param (senlin/common/utils.py, not under the
sources) on an already-int value returns it, raising InvalidParameter for
a negative value unless allow_negative. -/
def parse_int_param (name : String) (value : Int) (allow_negative : Bool) :
    Except ApiErr Int :=
  if value < 0 && !allow_negative then .error (.invalidParameter name)
  else .ok value

/-- parse_int_param lifted to an optional field (absent fields are not
parsed). -/
def parseOptInt (name : String) (v : Option Int) (allow_negative : Bool) :
    Except ApiErr (Option Int) :=
  match v with
  | none => .ok none
  | some n =>
    match parse_int_param name n allow_negative with
    | .ok m => .ok (some m)
    | .error e => .error e

/-- The adjustment_type / number pairing checks at the top of _do_resize,
in source order: a present adjustment_type must be recognized (else
InvalidParameter) and accompanied by number (else HTTPBadRequest); a
present number requires adjustment_type (else HTTPBadRequest). -/
def checkAdjPair (d : ActionData) : Except ApiErr Unit :=
  match d.adjustment_type with
  | some t =>
    if ADJUSTMENT_TYPES.contains t then
      match d.number with
      | none => .error (.badRequest "Missing number value for resize operation.")
      | some _ => .ok ()
    else .error (.invalidParameter "adjustment_type")
  | none =>
    match d.number with
    | some _ =>
      .error (.badRequest "Missing adjustment_type value for resize operation.")
    | none => .ok ()

/-- The tail of _do_resize after the min_size/max_size comparison: parse
min_step, default strict to True when absent, and issue the cluster_resize
RPC call. -/
def resizeTail (cid : String) (d : ActionData)
    (min_size max_size : Option Int) : Except ApiErr RpcCall := do
  let min_step ← parseOptInt "min_step" d.min_step false
  let strict := d.strict.getD true
  return .clusterResize cid d.adjustment_type d.number min_size max_size
    min_step strict

/-- The min_size/max_size comparison of _do_resize: both provided,
max_size positive, min_size strictly greater. -/
def minMaxConflict : Option Int → Option Int → Bool
  | some mn, some mx => decide (0 < mx) && decide (mx < mn)
  | _, _ => false

/-- The HTTPBadRequest message of the min_size/max_size comparison. -/
def resizeMinMaxMsg (min_size max_size : Option Int) : String :=
  "The specified min_size (" ++ toString (min_size.getD 0) ++
    ") is greater than the specified max_size (" ++
    toString (max_size.getD 0) ++ ")."

/-- The validations of ClusterController._do_resize, producing the
cluster_resize RPC call they guard. -/
def do_resize_call (cid : String) (d : ActionData) : Except ApiErr RpcCall := do
  let _ ← checkAdjPair d
  let min_size ← parseOptInt "min_size" d.min_size false
  let max_size ← parseOptInt "max_size" d.max_size true
  if minMaxConflict min_size max_size then
    .error (.badRequest (resizeMinMaxMsg min_size max_size))
  else resizeTail cid d min_size max_size

/-- ClusterController._do_resize: reading the fields of a non-dict action
value raises AttributeError; otherwise validate and, on success, issue the
RPC call and return its location. -/
def do_resize (env : ApiEnv) (cid : String) (d : ActionData) : ApiOutcome :=
  if !d.isMap then ([], .error .attributeError)
  else
    match do_resize_call cid d with
    | .error e => ([], .error e)
    | .ok c => locResp env c

/-- The per-pair emptiness checks of _replace_nodes, in iteration order:
the original node id is checked before its replacement. -/
def checkReplacePairs : List (String × String) → Option String
  | [] => none
  | (o, n) :: rest =>
    if o = "" then some "The original node id could not be empty."
    else if n = "" then some "The replacement node id could not be empty."
    else checkReplacePairs rest

/-- The duplicate-values check of _replace_nodes (Python:
len(new_nodes) != len(set(new_nodes)), modelled with dedup). -/
def hasDupValues (pairs : List (String × String)) : Bool :=
  decide ((pairs.map Prod.snd).dedup.length ≠ (pairs.map Prod.snd).length)

/-- ClusterController._replace_nodes: the 'nodes' value must be a
non-empty mapping, its values (replacement ids) must be pairwise
distinct, and no original or replacement id may be empty; then
cluster_replace_nodes is called. -/
def replace_nodes (env : ApiEnv) (cid : String) (d : ActionData) :
    ApiOutcome :=
  if !d.isMap then ([], .error .attributeError)
  else
    match d.nodes with
    | some (.map pairs) =>
      if pairs.isEmpty then
        ([], .error (.badRequest "The data provided is not a map."))
      else if hasDupValues pairs then
        ([], .error (.badRequest "The data provided contains duplicated nodes."))
      else
        match checkReplacePairs pairs with
        | some msg => ([], .error (.badRequest msg))
        | none => locResp env (.clusterReplaceNodes cid pairs)
    | _ => ([], .error (.badRequest "The data provided is not a map."))

/-- ClusterController._sanitize_policy: the data must be a dict containing
policy_id; a present enabled flag is parsed as a boolean (the identity on
the typed model). -/
def sanitize_policy (d : ActionData) : Except ApiErr (String × Option Bool) :=
  if !d.isMap then .error (.badRequest "The data provided is not a map.")
  else
    match d.policy_id with
    | none => .error (.badRequest "The 'policy_id' field is missing in the request.")
    | some pid => .ok (pid, d.enabled)

/-- The 'nodes' list an add_nodes/del_nodes body carries
(data.get('nodes', [])). -/
def nodesListOf (d : ActionData) : List String :=
  match d.nodes with
  | some (.list l) => l
  | _ => []

/-- ClusterController._add_nodes: schema validation, then the RPC call. -/
def add_nodes (env : ApiEnv) (cid : String) (d : ActionData) : ApiOutcome :=
  if !d.isMap then ([], .error .attributeError)
  else if env.schemaOk "ClusterAddNodesRequest" then
    locResp env (.addNodes cid (nodesListOf d))
  else ([], .error (.badRequest "schema validation failed"))

/-- ClusterController._del_nodes: schema validation, then the RPC call. -/
def del_nodes (env : ApiEnv) (cid : String) (d : ActionData) : ApiOutcome :=
  if !d.isMap then ([], .error .attributeError)
  else if env.schemaOk "ClusterDelNodesRequest" then
    locResp env (.delNodes cid (nodesListOf d))
  else ([], .error (.badRequest "schema validation failed"))

/-- The scale_out branch of action: count is read from the action body
(AttributeError on a non-dict value) and passed to cluster_scale_out. -/
def scale_out_branch (env : ApiEnv) (cid : String) (d : ActionData) :
    ApiOutcome :=
  if !d.isMap then ([], .error .attributeError)
  else locResp env (.clusterScaleOut cid d.count)

/-- The scale_in branch of action. -/
def scale_in_branch (env : ApiEnv) (cid : String) (d : ActionData) :
    ApiOutcome :=
  if !d.isMap then ([], .error .attributeError)
  else locResp env (.clusterScaleIn cid d.count)

/-- The policy_attach branch of action: sanitize, then
cluster_policy_attach. -/
def policy_attach_branch (env : ApiEnv) (cid : String) (d : ActionData) :
    ApiOutcome :=
  match sanitize_policy d with
  | .error e => ([], .error e)
  | .ok (pid, enabled) => locResp env (.clusterPolicyAttach cid pid enabled)

/-- The policy_detach branch of action: a missing or falsy (empty)
policy_id is rejected. -/
def policy_detach_branch (env : ApiEnv) (cid : String) (d : ActionData) :
    ApiOutcome :=
  if !d.isMap then ([], .error .attributeError)
  else
    match d.policy_id with
    | none => ([], .error (.badRequest "No policy specified for detach."))
    | some pid =>
      if pid = "" then
        ([], .error (.badRequest "No policy specified for detach."))
      else locResp env (.clusterPolicyDetach cid pid)

/-- The policy_update branch of action: sanitize, then
cluster_policy_update. -/
def policy_update_branch (env : ApiEnv) (cid : String) (d : ActionData) :
    ApiOutcome :=
  match sanitize_policy d with
  | .error e => ([], .error e)
  | .ok (pid, enabled) => locResp env (.clusterPolicyUpdate cid pid enabled)

/-- The check branch of action: params must be a dict. -/
def check_branch (env : ApiEnv) (cid : String) (d : ActionData) :
    ApiOutcome :=
  if !d.isMap then
    ([], .error (.badRequest "The params provided is not a map."))
  else locResp env (.clusterCheck cid)

/-- The recover branch of action (the final else of the chain): params
must be a dict. -/
def recover_branch (env : ApiEnv) (cid : String) (d : ActionData) :
    ApiOutcome :=
  if !d.isMap then
    ([], .error (.badRequest "The params provided is not a map."))
  else locResp env (.clusterRecover cid)

/-- The dispatch chain of ClusterController.action for a single action
key: reject an unrecognized action before any RPC call, then dispatch in
the source's elif order (the final else branch is recover). -/
def action_dispatch (env : ApiEnv) (cid : String) (k : String)
    (d : ActionData) : ApiOutcome :=
  if !(SUPPORTED_ACTIONS.contains k) then
    ([], .error (.badRequest ("Unrecognized action '" ++ k ++ "' specified")))
  else if k = "add_nodes" then add_nodes env cid d
  else if k = "del_nodes" then del_nodes env cid d
  else if k = "resize" then do_resize env cid d
  else if k = "scale_out" then scale_out_branch env cid d
  else if k = "scale_in" then scale_in_branch env cid d
  else if k = "policy_attach" then policy_attach_branch env cid d
  else if k = "policy_detach" then policy_detach_branch env cid d
  else if k = "policy_update" then policy_update_branch env cid d
  else if k = "check" then check_branch env cid d
  else if k = "replace_nodes" then replace_nodes env cid d
  else recover_branch env cid d

/-- ClusterController.action: reject an empty body and a body with several
action keys, then dispatch the single action key. -/
def action (env : ApiEnv) (cid : String)
    (body : List (String × ActionData)) : ApiOutcome :=
  match body with
  | [] => ([], .error (.badRequest "No action specified"))
  | [(k, d)] => action_dispatch env cid k d
  | _ => ([], .error (.badRequest "Multiple actions specified"))

/-- ClusterController.create: schema validation of the cluster body, then
cluster_create2; the response carries location '/actions/<action id>'. -/
def create (env : ApiEnv) : ApiOutcome :=
  if env.schemaOk "ClusterCreateRequest" then locResp env .clusterCreate2
  else ([], .error (.badRequest "schema validation failed"))

/-- ClusterController.update: the body must contain a 'cluster' key; then
schema validation and cluster_update2. -/
def update (env : ApiEnv) (cid : String) (hasClusterKey : Bool) : ApiOutcome :=
  if !hasClusterKey then
    ([], .error (.badRequest
      "Malformed request data, missing 'cluster' key in request body."))
  else if env.schemaOk "ClusterUpdateRequest" then
    locResp env (.clusterUpdate2 cid)
  else ([], .error (.badRequest "schema validation failed"))

/-- ClusterController.delete: cluster_delete, then a result holding only
the location built from the returned action id. -/
def delete (env : ApiEnv) (cid : String) : ApiOutcome :=
  locResp env (.clusterDelete cid)

/-- A concrete environment: every RPC response carries action id a-1 and
schema validation passes. -/
def envApi0 : ApiEnv :=
  { rpcAction := fun _ => "a-1"
    schemaOk := fun _ => true }

/-! ## Lock manager

The Lock Manager belongs to the engine core, which is not under the
sources; everything in this section is modelled from the design document
(data model of a Lock row, tryAcquire / release / reclaimExpired, and the
rule that every read-then-write on the shared store is an atomic
conditional update, so a concurrent history is an interleaving of
serialized steps). -/

/-- Modelled from the spec: a Lock row — resource type + resource id (the
unique key), holder action id, holder engine instance id, acquisition
timestamp, lease expiry. -/
structure Lock where
  resourceType : String
  resourceId : String
  holderAction : String
  holderEngine : String
  acquiredAt : Nat
  leaseExpiry : Nat
deriving DecidableEq, Repr

/-- The unique key of a lock row. -/
def Lock.key (l : Lock) : String × String := (l.resourceType, l.resourceId)

/-- A lock row is live (non-expired) at the given time. -/
def Lock.live (l : Lock) (now : Nat) : Bool := decide (now < l.leaseExpiry)

/-- The persisted locks table plus the clock. -/
structure LockStore where
  locks : List Lock
  now : Nat
deriving DecidableEq, Repr

def LockStore.empty : LockStore := { locks := [], now := 0 }

/-- The live lock rows for one resource key. -/
def liveLocksFor (s : LockStore) (k : String × String) : List Lock :=
  s.locks.filter fun l => decide (l.key = k) && l.live s.now

/-- Modelled from the spec: tryAcquire succeeds iff no live lock exists
for the key, inserting a row whose lease expires at now + leaseDuration;
it never blocks. -/
def tryAcquire (rt rid aid eid : String) (lease : Nat) (s : LockStore) :
    Bool × LockStore :=
  if s.locks.any (fun l => decide (l.key = (rt, rid)) && l.live s.now) then
    (false, s)
  else
    (true, { s with locks := s.locks ++
      [{ resourceType := rt, resourceId := rid, holderAction := aid,
         holderEngine := eid, acquiredAt := s.now,
         leaseExpiry := s.now + lease }] })

/-- Modelled from the spec: release removes the lock only when the caller
is the current holder; releasing a lock one does not hold is a no-op. -/
def release (rt rid aid : String) (s : LockStore) : LockStore :=
  { s with locks := s.locks.filter fun l =>
      !(decide (l.key = (rt, rid)) && l.holderAction == aid) }

/-- Modelled from the spec: the periodic sweep deleting rows whose lease
has expired. -/
def reclaimExpired (s : LockStore) : LockStore :=
  { s with locks := s.locks.filter fun l => l.live s.now }

/-- One serialized step against the shared lock store; tick advances the
clock. -/
inductive LockOp
  | tryAcquire (rt rid aid eid : String) (lease : Nat)
  | release (rt rid aid : String)
  | reclaimExpired
  | tick (dt : Nat)

def LockStore.step (s : LockStore) : LockOp → LockStore
  | .tryAcquire rt rid aid eid lease => (tryAcquire rt rid aid eid lease s).2
  | .release rt rid aid => release rt rid aid s
  | .reclaimExpired => reclaimExpired s
  | .tick dt => { s with now := s.now + dt }

/-- Run a history of serialized steps from the empty store. -/
def LockStore.run (ops : List LockOp) : LockStore :=
  ops.foldl LockStore.step LockStore.empty

/-! ## Lemmas and claim theorems -/

lemma wait_from_eq_true_iff (poll : Nat → Option LoadBalancer) (timeout : Nat)
    (inf : Bool) :
    ∀ waited, wait_for_lb_ready_from poll timeout inf waited = true ↔
      ∃ w, waited ≤ w ∧ w < timeout ∧ (w - waited) % 2 = 0 ∧
        lbPollReady (poll w) inf = true := by
  have key : ∀ n waited, timeout - waited ≤ n →
      (wait_for_lb_ready_from poll timeout inf waited = true ↔
        ∃ w, waited ≤ w ∧ w < timeout ∧ (w - waited) % 2 = 0 ∧
          lbPollReady (poll w) inf = true) := by
    intro n
    induction n with
    | zero =>
      intro waited hle
      have hnot : ¬ waited < timeout := by omega
      rw [wait_for_lb_ready_from, if_neg hnot]
      exact iff_of_false (by simp)
        (by rintro ⟨w, hw1, hw2, -, -⟩; omega)
    | succ n ih =>
      intro waited hle
      rw [wait_for_lb_ready_from]
      by_cases hw : waited < timeout
      · rw [if_pos hw]
        by_cases hr : lbPollReady (poll waited) inf = true
        · rw [if_pos hr]
          exact iff_of_true rfl ⟨waited, le_refl _, hw, by omega, hr⟩
        · rw [if_neg hr, ih (waited + 2) (by omega)]
          constructor
          · rintro ⟨w, hw1, hw2, hw3, hw4⟩
            exact ⟨w, by omega, hw2, by omega, hw4⟩
          · rintro ⟨w, hw1, hw2, hw3, hw4⟩
            have hge : waited + 2 ≤ w := by
              rcases Nat.lt_or_ge w (waited + 2) with hlt | hge
              · exfalso
                have : w = waited ∨ w = waited + 1 := by omega
                rcases this with rfl | rfl
                · exact hr hw4
                · omega
              · exact hge
            exact ⟨w, hge, hw2, by omega, hw4⟩
      · rw [if_neg hw]
        exact iff_of_false (by simp)
          (by rintro ⟨w, hw1, hw2, -, -⟩; omega)
  intro waited
  exact key (timeout - waited) waited (le_refl _)

lemma wait_polls_from_le (poll : Nat → Option LoadBalancer) (timeout : Nat)
    (inf : Bool) :
    ∀ waited, wait_polls_from poll timeout inf waited ≤
      (timeout - waited + 1) / 2 := by
  have key : ∀ n waited, timeout - waited ≤ n →
      wait_polls_from poll timeout inf waited ≤ (timeout - waited + 1) / 2 := by
    intro n
    induction n with
    | zero =>
      intro waited hle
      have hnot : ¬ waited < timeout := by omega
      rw [wait_polls_from, if_neg hnot]
      exact Nat.zero_le _
    | succ n ih =>
      intro waited hle
      rw [wait_polls_from]
      by_cases hw : waited < timeout
      · rw [if_pos hw]
        by_cases hr : lbPollReady (poll waited) inf = true
        · rw [if_pos hr]; omega
        · rw [if_neg hr]
          have := ih (waited + 2) (by omega)
          omega
      · rw [if_neg hw]
        exact Nat.zero_le _
  intro waited
  exact key (timeout - waited) waited (le_refl _)

/-- On a backend where the load balancer does not exist (every poll returns
None), the wait returns ignore_not_found provided at least one poll happens
(timeout positive), and False for a zero timeout. -/
lemma wait_absent (inf : Bool) (timeout : Nat) :
    wait_for_lb_ready (fun _ => none) timeout inf =
      (inf && decide (0 < timeout)) := by
  rw [wait_for_lb_ready]
  cases inf with
  | true =>
    cases timeout with
    | zero => rw [wait_for_lb_ready_from]; simp
    | succ t => rw [wait_for_lb_ready_from]; simp [lbPollReady]
  | false =>
    simp only [Bool.false_and]
    rw [Bool.eq_false_iff]
    intro hcon
    rw [wait_from_eq_true_iff] at hcon
    rcases hcon with ⟨w, -, -, -, hready⟩
    simp [lbPollReady] at hready

/-- Reduction of do-notation bind on an ok Except value. -/
lemma exceptBind_ok {ε α β : Type} (a : α) (f : α → Except ε β) :
    (Except.ok a : Except ε α) >>= f = f a := rfl

/-- Reduction of do-notation bind on an error Except value. -/
lemma exceptBind_error {ε α β : Type} (e : ε) (f : α → Except ε β) :
    (Except.error e : Except ε α) >>= f = .error e := rfl

/-- pure on Except is ok. -/
lemma exceptPure_eq {ε α : Type} (a : α) :
    (pure a : Except ε α) = .ok a := rfl

/-- C1: whenever a provisioning step of lb_create fails to become ready and
the compensating deletes succeed, every resource created by the call is
deleted again, in strict reverse order of creation, before the failure
result is returned: the run ends in Python's (False, msg) with the backend
holding no resource, and the trace's delete calls are exactly the reverse
of its create calls. -/
theorem lb_create_rollback_complete (env : LbEnv) (vip : VipSpec)
    (pool : PoolSpec) (msg : String) (st : LbState)
    (hops : ∀ o, env.opFails o = false)
    (hrun : lb_create env vip pool LbState.init = .ok (.failure msg, st)) :
    st.netEmpty = true ∧
      deletedResources st.trace = (createdResources st.trace).reverse := by
  cases h0 : env.waitReady 0 <;> cases h1 : env.waitReady 1 <;>
    cases h2 : env.waitReady 2 <;>
      simp [lb_create, loadbalancer_create, listener_create, pool_create,
        lb_delete, loadbalancer_delete, listener_delete, pool_delete,
        healthmonitor_delete, waitStep, LbState.init, hops, h0, h1, h2,
        exceptBind_ok, exceptBind_error, exceptPure_eq] at hrun
  all_goals
    obtain ⟨hmsg, hst⟩ := hrun
    subst hst
    exact ⟨rfl, rfl⟩

/-- Witness for lb_create_rollback_complete: the first wait fails in an
otherwise healthy environment. -/
theorem lb_create_rollback_complete_witness :
    ({ nextId := 1, lbs := [], listeners := [], pools := [], hms := [],
       waitCount := 2,
       trace := [.call .createLB 0, .wait 0 60 false false,
                 .call .deleteLB 0, .wait 0 1 false false] } :
        LbState).netEmpty = true ∧
      deletedResources [LbEvent.call .createLB 0, .wait 0 60 false false,
          .call .deleteLB 0, .wait 0 1 false false] =
        (createdResources [LbEvent.call .createLB 0, .wait 0 60 false false,
          .call .deleteLB 0, .wait 0 1 false false]).reverse := by
  have h := lb_create_rollback_complete (envFailAt 0) vip0 pool0
    "Failed in creating load balancer (0)."
    { nextId := 1, lbs := [], listeners := [], pools := [], hms := [],
      waitCount := 2,
      trace := [.call .createLB 0, .wait 0 60 false false,
                .call .deleteLB 0, .wait 0 1 false false] }
    (fun _ => rfl) rfl
  simpa [deletedResources, createdResources] using h

/-- C2: lb_delete on a load balancer absent from the backend returns the
success pair (True, 'LB deletion succeeded'), but its final readiness wait
is issued as _wait_for_lb_ready(lb_id, True): the True binds positionally
to timeout (as 1), ignore_not_found stays False, so the wait reports the
absent load balancer as NOT ready (outcome False in the trace), while
_wait_for_lb_ready with ignore_not_found=True would have reported ready. -/
theorem lb_delete_absent_lb_behavior :
    lb_delete envOk { loadbalancer := some 7 } LbState.init =
      .ok ((true, "LB deletion succeeded"),
        { nextId := 0, lbs := [], listeners := [], pools := [], hms := [],
          waitCount := 1,
          trace := [.call .deleteLB 7, .wait 7 1 false false] }) ∧
    wait_for_lb_ready (fun _ => none) 1 false = false ∧
    wait_for_lb_ready (fun _ => none) 1 true = true := by
  refine ⟨rfl, ?_, ?_⟩ <;> simp [wait_absent]

/-- C3 counterexample: when the first wait fails and the rollback's
loadbalancer_delete raises a backend exception, lb_create does not return
(False, msg): the exception escapes to the caller, because the _cleanup
helper does not catch exceptions from lb_delete. -/
theorem lb_create_rollback_exception_escapes :
    lb_create envRollbackFails vip0 pool0 LbState.init =
      .error "loadbalancer_delete failed" ∧
    raisedException (lb_create envRollbackFails vip0 pool0 LbState.init) =
      true :=
  ⟨rfl, rfl⟩

/-- C3 amended: when a provisioning step of lb_create fails and no backend
call raises, the call returns Python's (False, msg) pair and raises no
exception; but when the rollback's loadbalancer_delete raises, the
exception propagates to lb_create's caller. -/
theorem lb_create_failure_reporting :
    (∀ (env : LbEnv) (vip : VipSpec) (pool : PoolSpec),
      (∀ o, env.opFails o = false) →
      (env.waitReady 0 = false ∨ env.waitReady 1 = false ∨
        env.waitReady 2 = false) →
      returnedFailurePair (lb_create env vip pool LbState.init) = true ∧
        raisedException (lb_create env vip pool LbState.init) = false) ∧
    (∀ (env : LbEnv) (vip : VipSpec) (pool : PoolSpec),
      env.waitReady 0 = false → env.opFails LbOp.deleteLB = true →
      raisedException (lb_create env vip pool LbState.init) = true) := by
  constructor
  · intro env vip pool hops hfail
    cases h0 : env.waitReady 0 <;> cases h1 : env.waitReady 1 <;>
      cases h2 : env.waitReady 2 <;>
        simp [lb_create, loadbalancer_create, listener_create, pool_create,
          lb_delete, loadbalancer_delete, listener_delete, pool_delete,
          healthmonitor_delete, waitStep, LbState.init, hops, h0, h1, h2,
          exceptBind_ok, exceptBind_error, exceptPure_eq,
          returnedFailurePair, raisedException]
    simp [h0, h1, h2] at hfail
  · intro env vip pool h0 hdel
    cases hc : env.opFails LbOp.createLB <;>
      simp [lb_create, loadbalancer_create, listener_create, pool_create,
        lb_delete, loadbalancer_delete, listener_delete, pool_delete,
        healthmonitor_delete, waitStep, LbState.init, h0, hdel, hc,
        exceptBind_ok, exceptBind_error, exceptPure_eq, raisedException]

/-- Witness for lb_create_failure_reporting at concrete environments. -/
theorem lb_create_failure_reporting_witness :
    (returnedFailurePair (lb_create (envFailAt 0) vip0 pool0 LbState.init) =
        true ∧
      raisedException (lb_create (envFailAt 0) vip0 pool0 LbState.init) =
        false) ∧
    raisedException (lb_create envRollbackFails vip0 pool0 LbState.init) =
      true :=
  ⟨lb_create_failure_reporting.1 (envFailAt 0) vip0 pool0 (fun _ => rfl)
      (Or.inl rfl),
    lb_create_failure_reporting.2 envRollbackFails vip0 pool0 rfl rfl⟩

/-- C5: lb_create provisions in the fixed order loadbalancer, listener,
pool, issuing a readiness wait on the load balancer after each step before
the next one starts, and on success returns (True, result) with the keys
loadbalancer, listener and pool mapped to the ids of the three created
resources. -/
theorem lb_create_step_order_and_result (env : LbEnv) (vip : VipSpec)
    (pool : PoolSpec)
    (hops : ∀ o, env.opFails o = false)
    (hw0 : env.waitReady 0 = true) (hw1 : env.waitReady 1 = true)
    (hw2 : env.waitReady 2 = true) :
    lb_create env vip pool LbState.init =
      .ok (.success { loadbalancer := some 0, listener := some 1,
                      pool := some 2 },
        { nextId := 3, lbs := [0], listeners := [1], pools := [2], hms := [],
          waitCount := 3,
          trace := [.call .createLB 0, .wait 0 60 false true,
                    .call .createListener 1, .wait 0 60 false true,
                    .call .createPool 2, .wait 0 60 false true] }) := by
  simp [lb_create, loadbalancer_create, listener_create, pool_create,
    waitStep, LbState.init, hops, hw0, hw1, hw2,
    exceptBind_ok, exceptBind_error, exceptPure_eq]

/-- Witness for lb_create_step_order_and_result in the healthy
environment. -/
theorem lb_create_step_order_and_result_witness :
    lb_create envOk vip0 pool0 LbState.init =
      .ok (.success { loadbalancer := some 0, listener := some 1,
                      pool := some 2 },
        { nextId := 3, lbs := [0], listeners := [1], pools := [2], hms := [],
          waitCount := 3,
          trace := [.call .createLB 0, .wait 0 60 false true,
                    .call .createListener 1, .wait 0 60 false true,
                    .call .createPool 2, .wait 0 60 false true] }) :=
  lb_create_step_order_and_result envOk vip0 pool0 (fun _ => rfl) rfl rfl rfl

/-- C4: the readiness poll terminates with a bounded number of backend
polls — at most (timeout+1)/2, the number of 2-second steps below the
timeout — returning True exactly when some poll at an even accumulated
wait below the timeout observes the load balancer ACTIVE and ONLINE (or
absent with ignore_not_found), and False otherwise, in particular once the
accumulated wait reaches the timeout. -/
theorem wait_for_lb_ready_bounded_and_correct
    (poll : Nat → Option LoadBalancer) (timeout : Nat) (inf : Bool) :
    (wait_for_lb_ready poll timeout inf = true ↔
      ∃ w, w < timeout ∧ w % 2 = 0 ∧ lbPollReady (poll w) inf = true) ∧
    wait_polls poll timeout inf ≤ (timeout + 1) / 2 := by
  constructor
  · rw [wait_for_lb_ready, wait_from_eq_true_iff]
    constructor
    · rintro ⟨w, -, hw2, hw3, hw4⟩
      exact ⟨w, hw2, by omega, hw4⟩
    · rintro ⟨w, hw2, hw3, hw4⟩
      exact ⟨w, Nat.zero_le _, hw2, by omega, hw4⟩
  · have h := wait_polls_from_le poll timeout inf 0
    rw [wait_polls]
    omega

/-- Every single serialized step preserves the at-most-one-live-lock-per-
key invariant. -/
lemma step_preserves_at_most_one (s : LockStore) (op : LockOp)
    (h : ∀ k, (liveLocksFor s k).length ≤ 1) :
    ∀ k, (liveLocksFor (s.step op) k).length ≤ 1 := by
  intro k
  cases op with
  | tryAcquire rt rid aid eid lease =>
    simp only [LockStore.step, tryAcquire]
    by_cases hany :
        s.locks.any (fun l => decide (l.key = (rt, rid)) && l.live s.now) = true
    · rw [if_pos hany]
      exact h k
    · rw [if_neg hany]
      simp only [liveLocksFor, List.filter_append, List.length_append]
      by_cases hk : k = (rt, rid)
      · subst hk
        have hnil :
            s.locks.filter
              (fun l => decide (l.key = (rt, rid)) && l.live s.now) = [] := by
          rw [List.filter_eq_nil_iff]
          intro a ha
          have := List.any_eq_false.mp (Bool.eq_false_iff.mpr hany) a ha
          simpa using this
        rw [hnil]
        simpa using List.length_filter_le
          (fun l => decide (l.key = (rt, rid)) && l.live s.now)
          [({ resourceType := rt, resourceId := rid, holderAction := aid,
              holderEngine := eid, acquiredAt := s.now,
              leaseExpiry := s.now + lease } : Lock)]
      · have hone :
            List.filter (fun l => decide (l.key = k) && l.live s.now)
              [({ resourceType := rt, resourceId := rid, holderAction := aid,
                  holderEngine := eid, acquiredAt := s.now,
                  leaseExpiry := s.now + lease } : Lock)] = [] := by
          rw [List.filter_eq_nil_iff]
          intro a ha
          simp only [List.mem_singleton] at ha
          subst ha
          simp [Lock.key]
          intro hcon
          exact absurd hcon.symm hk
        rw [hone]
        simpa using h k
  | release rt rid aid =>
    simp only [LockStore.step, release, liveLocksFor]
    have hsub :
        List.Sublist
          ((s.locks.filter fun l =>
              !(decide (l.key = (rt, rid)) && l.holderAction == aid)).filter
            (fun l => decide (l.key = k) && l.live s.now))
          (s.locks.filter (fun l => decide (l.key = k) && l.live s.now)) :=
      List.Sublist.filter _ (List.filter_sublist s.locks)
    exact le_trans hsub.length_le (h k)
  | reclaimExpired =>
    simp only [LockStore.step, reclaimExpired, liveLocksFor]
    have hsub :
        List.Sublist
          ((s.locks.filter fun l => l.live s.now).filter
            (fun l => decide (l.key = k) && l.live s.now))
          (s.locks.filter (fun l => decide (l.key = k) && l.live s.now)) :=
      List.Sublist.filter _ (List.filter_sublist s.locks)
    exact le_trans hsub.length_le (h k)
  | tick dt =>
    simp only [LockStore.step, liveLocksFor]
    have hsub :
        List.Sublist
          (s.locks.filter (fun l => decide (l.key = k) && l.live (s.now + dt)))
          (s.locks.filter (fun l => decide (l.key = k) && l.live s.now)) := by
      refine List.monotone_filter_right _ ?_
      intro a ha
      simp only [Lock.live, Bool.and_eq_true, decide_eq_true_eq] at ha ⊢
      exact ⟨ha.1, by omega⟩
    exact le_trans hsub.length_le (h k)

/-- C9: modelled from the spec — running any interleaved history of
tryAcquire / release / reclaimExpired steps and clock advances from the
empty lock store leaves, at every instant, at most one live (non-expired)
lock row per resource key, so at most one in-flight mutation per resource
is possible. -/
theorem lock_at_most_one_live (ops : List LockOp) (k : String × String) :
    (liveLocksFor (LockStore.run ops) k).length ≤ 1 := by
  suffices hgen : ∀ (s : LockStore),
      (∀ k2, (liveLocksFor s k2).length ≤ 1) →
      ∀ k2, (liveLocksFor (ops.foldl LockStore.step s) k2).length ≤ 1 by
    refine hgen LockStore.empty ?_ k
    intro k2
    simp [liveLocksFor, LockStore.empty]
  induction ops with
  | nil =>
    intro s hs
    exact hs
  | cons op rest ih =>
    intro s hs
    exact ih (s.step op) (step_preserves_at_most_one s op hs)

/-- A successful locResp outcome names exactly its RPC call and points
location at that call's action id. -/
lemma locResp_ok (env : ApiEnv) (c : RpcCall) (tr : List RpcCall)
    (resp : ApiResp) (h : locResp env c = (tr, .ok resp)) :
    tr = [c] ∧ resp.location = "/actions/" ++ env.rpcAction c := by
  simp only [locResp, Prod.mk.injEq, Except.ok.injEq] at h
  obtain ⟨h1, h2⟩ := h
  exact ⟨h1.symm, by rw [← h2]⟩

/-- Existential form of locResp_ok. -/
lemma locResp_ok_ex (env : ApiEnv) (c : RpcCall) (tr : List RpcCall)
    (resp : ApiResp) (h : locResp env c = (tr, .ok resp)) :
    ∃ c2, tr = [c2] ∧ resp.location = "/actions/" ++ env.rpcAction c2 :=
  ⟨c, (locResp_ok env c tr resp h).1, (locResp_ok env c tr resp h).2⟩

/-- A successful add_nodes outcome is a locResp outcome. -/
lemma add_nodes_loc (env : ApiEnv) (cid : String) (d : ActionData)
    (tr : List RpcCall) (resp : ApiResp)
    (h : add_nodes env cid d = (tr, .ok resp)) :
    ∃ c, tr = [c] ∧ resp.location = "/actions/" ++ env.rpcAction c := by
  unfold add_nodes at h
  split at h
  · simp at h
  · split at h
    · exact locResp_ok_ex env _ tr resp h
    · simp at h

/-- A successful del_nodes outcome is a locResp outcome. -/
lemma del_nodes_loc (env : ApiEnv) (cid : String) (d : ActionData)
    (tr : List RpcCall) (resp : ApiResp)
    (h : del_nodes env cid d = (tr, .ok resp)) :
    ∃ c, tr = [c] ∧ resp.location = "/actions/" ++ env.rpcAction c := by
  unfold del_nodes at h
  split at h
  · simp at h
  · split at h
    · exact locResp_ok_ex env _ tr resp h
    · simp at h

/-- A successful do_resize outcome is a locResp outcome. -/
lemma do_resize_loc (env : ApiEnv) (cid : String) (d : ActionData)
    (tr : List RpcCall) (resp : ApiResp)
    (h : do_resize env cid d = (tr, .ok resp)) :
    ∃ c, tr = [c] ∧ resp.location = "/actions/" ++ env.rpcAction c := by
  unfold do_resize at h
  split at h
  · simp at h
  · split at h
    · simp at h
    · exact locResp_ok_ex env _ tr resp h

/-- A successful replace_nodes outcome is a locResp outcome. -/
lemma replace_nodes_loc (env : ApiEnv) (cid : String) (d : ActionData)
    (tr : List RpcCall) (resp : ApiResp)
    (h : replace_nodes env cid d = (tr, .ok resp)) :
    ∃ c, tr = [c] ∧ resp.location = "/actions/" ++ env.rpcAction c := by
  unfold replace_nodes at h
  split at h
  · simp at h
  · split at h
    · split at h
      · simp at h
      · split at h
        · simp at h
        · split at h
          · simp at h
          · exact locResp_ok_ex env _ tr resp h
    · simp at h

/-- A successful scale_out branch is a locResp outcome. -/
lemma scale_out_branch_loc (env : ApiEnv) (cid : String) (d : ActionData)
    (tr : List RpcCall) (resp : ApiResp)
    (h : scale_out_branch env cid d = (tr, .ok resp)) :
    ∃ c, tr = [c] ∧ resp.location = "/actions/" ++ env.rpcAction c := by
  unfold scale_out_branch at h
  split at h
  · simp at h
  · exact locResp_ok_ex env _ tr resp h

/-- A successful scale_in branch is a locResp outcome. -/
lemma scale_in_branch_loc (env : ApiEnv) (cid : String) (d : ActionData)
    (tr : List RpcCall) (resp : ApiResp)
    (h : scale_in_branch env cid d = (tr, .ok resp)) :
    ∃ c, tr = [c] ∧ resp.location = "/actions/" ++ env.rpcAction c := by
  unfold scale_in_branch at h
  split at h
  · simp at h
  · exact locResp_ok_ex env _ tr resp h

/-- A successful policy_attach branch is a locResp outcome. -/
lemma policy_attach_branch_loc (env : ApiEnv) (cid : String)
    (d : ActionData) (tr : List RpcCall) (resp : ApiResp)
    (h : policy_attach_branch env cid d = (tr, .ok resp)) :
    ∃ c, tr = [c] ∧ resp.location = "/actions/" ++ env.rpcAction c := by
  unfold policy_attach_branch at h
  split at h
  · simp at h
  · exact locResp_ok_ex env _ tr resp h

/-- A successful policy_detach branch is a locResp outcome. -/
lemma policy_detach_branch_loc (env : ApiEnv) (cid : String)
    (d : ActionData) (tr : List RpcCall) (resp : ApiResp)
    (h : policy_detach_branch env cid d = (tr, .ok resp)) :
    ∃ c, tr = [c] ∧ resp.location = "/actions/" ++ env.rpcAction c := by
  unfold policy_detach_branch at h
  split at h
  · simp at h
  · split at h
    · simp at h
    · split at h
      · simp at h
      · exact locResp_ok_ex env _ tr resp h

/-- A successful policy_update branch is a locResp outcome. -/
lemma policy_update_branch_loc (env : ApiEnv) (cid : String)
    (d : ActionData) (tr : List RpcCall) (resp : ApiResp)
    (h : policy_update_branch env cid d = (tr, .ok resp)) :
    ∃ c, tr = [c] ∧ resp.location = "/actions/" ++ env.rpcAction c := by
  unfold policy_update_branch at h
  split at h
  · simp at h
  · exact locResp_ok_ex env _ tr resp h

/-- A successful check branch is a locResp outcome. -/
lemma check_branch_loc (env : ApiEnv) (cid : String) (d : ActionData)
    (tr : List RpcCall) (resp : ApiResp)
    (h : check_branch env cid d = (tr, .ok resp)) :
    ∃ c, tr = [c] ∧ resp.location = "/actions/" ++ env.rpcAction c := by
  unfold check_branch at h
  split at h
  · simp at h
  · exact locResp_ok_ex env _ tr resp h

/-- A successful recover branch is a locResp outcome. -/
lemma recover_branch_loc (env : ApiEnv) (cid : String) (d : ActionData)
    (tr : List RpcCall) (resp : ApiResp)
    (h : recover_branch env cid d = (tr, .ok resp)) :
    ∃ c, tr = [c] ∧ resp.location = "/actions/" ++ env.rpcAction c := by
  unfold recover_branch at h
  split at h
  · simp at h
  · exact locResp_ok_ex env _ tr resp h

/-- C6: a cluster-action request whose body is empty, carries more than
one action key, or names an action outside SUPPORTED_ACTIONS is rejected
with HTTPBadRequest before any RPC call is made. -/
theorem action_malformed_rejected (env : ApiEnv) (cid : String)
    (body : List (String × ActionData)) :
    (body = [] → isBadRequestOutcome (action env cid body) = true) ∧
    (∀ a b rest, body = a :: b :: rest →
      isBadRequestOutcome (action env cid body) = true) ∧
    (∀ k d, body = [(k, d)] → SUPPORTED_ACTIONS.contains k = false →
      isBadRequestOutcome (action env cid body) = true) := by
  refine ⟨?_, ?_, ?_⟩
  · rintro rfl
    rfl
  · rintro a b rest rfl
    rfl
  · rintro k d rfl hk
    have hk2 : ¬ (k ∈ SUPPORTED_ACTIONS) := by simpa using hk
    simp [action, action_dispatch, hk2, isBadRequestOutcome]

/-- Witness for action_malformed_rejected: an empty body, a two-action
body, and an unrecognized action name. -/
theorem action_malformed_rejected_witness :
    isBadRequestOutcome (action envApi0 "c1" []) = true ∧
    isBadRequestOutcome
      (action envApi0 "c1" [("scale_out", {}), ("scale_in", {})]) = true ∧
    isBadRequestOutcome (action envApi0 "c1" [("explode", {})]) = true :=
  ⟨(action_malformed_rejected envApi0 "c1" []).1 rfl,
   (action_malformed_rejected envApi0 "c1"
      [("scale_out", {}), ("scale_in", {})]).2.1 _ _ _ rfl,
   (action_malformed_rejected envApi0 "c1" [("explode", {})]).2.2
      "explode" {} rfl (by decide)⟩

/-- C8: every mutating controller operation that succeeds — create,
update, delete, and every dispatched cluster action — made exactly one RPC
call and returns a location of the form '/actions/<action id>' where the
action id is the one found in that RPC call's response. -/
theorem mutating_ops_return_action_location (env : ApiEnv) :
    (∀ tr resp, create env = (tr, .ok resp) →
      ∃ c, tr = [c] ∧ resp.location = "/actions/" ++ env.rpcAction c) ∧
    (∀ cid hasKey tr resp, update env cid hasKey = (tr, .ok resp) →
      ∃ c, tr = [c] ∧ resp.location = "/actions/" ++ env.rpcAction c) ∧
    (∀ cid tr resp, delete env cid = (tr, .ok resp) →
      ∃ c, tr = [c] ∧ resp.location = "/actions/" ++ env.rpcAction c) ∧
    (∀ cid body tr resp, action env cid body = (tr, .ok resp) →
      ∃ c, tr = [c] ∧ resp.location = "/actions/" ++ env.rpcAction c) := by
  refine ⟨?_, ?_, ?_, ?_⟩
  · intro tr resp h
    unfold create at h
    split at h
    · exact locResp_ok_ex env _ tr resp h
    · simp at h
  · intro cid hasKey tr resp h
    unfold update at h
    split at h
    · simp at h
    · split at h
      · exact locResp_ok_ex env _ tr resp h
      · simp at h
  · intro cid tr resp h
    unfold delete at h
    exact locResp_ok_ex env _ tr resp h
  · intro cid body tr resp h
    rcases body with - | ⟨⟨k, d⟩, - | ⟨b, rest⟩⟩
    · simp [action] at h
    · simp only [action] at h
      by_cases hc : SUPPORTED_ACTIONS.contains k = true
      · have hmem : k ∈ SUPPORTED_ACTIONS := by simpa using hc
        simp only [SUPPORTED_ACTIONS, List.mem_cons,
          List.not_mem_nil, or_false] at hmem
        rcases hmem with rfl | rfl | rfl | rfl | rfl | rfl | rfl | rfl |
          rfl | rfl | rfl
        · exact add_nodes_loc env cid d tr resp h
        · exact del_nodes_loc env cid d tr resp h
        · exact scale_out_branch_loc env cid d tr resp h
        · exact scale_in_branch_loc env cid d tr resp h
        · exact do_resize_loc env cid d tr resp h
        · exact policy_attach_branch_loc env cid d tr resp h
        · exact policy_detach_branch_loc env cid d tr resp h
        · exact policy_update_branch_loc env cid d tr resp h
        · exact check_branch_loc env cid d tr resp h
        · exact recover_branch_loc env cid d tr resp h
        · exact replace_nodes_loc env cid d tr resp h
      · have hc2 : SUPPORTED_ACTIONS.contains k = false := by
          simpa using hc
        unfold action_dispatch at h
        rw [hc2] at h
        simp at h
    · simp [action] at h

/-- Witness for mutating_ops_return_action_location at the delete
operation. -/
theorem mutating_ops_return_action_location_witness :
    ∃ c, [RpcCall.clusterDelete "c1"] = [c] ∧
      ({ location := "/actions/a-1" } : ApiResp).location =
        "/actions/" ++ envApi0.rpcAction c :=
  (mutating_ops_return_action_location envApi0).2.2.1 "c1"
    [RpcCall.clusterDelete "c1"] { location := "/actions/a-1" } rfl

/-- A successful resizeTail produces the cluster_resize call with
strict's value defaulted to True. -/
lemma resizeTail_ok_shape (cid : String) (d : ActionData)
    (min_size max_size : Option Int) (c : RpcCall)
    (h : resizeTail cid d min_size max_size = .ok c) :
    ∃ ms, c = .clusterResize cid d.adjustment_type d.number min_size
      max_size ms (d.strict.getD true) := by
  unfold resizeTail at h
  cases hms : parseOptInt "min_step" d.min_step false with
  | error e =>
    rw [hms] at h
    simp [exceptBind_error] at h
  | ok ms =>
    rw [hms] at h
    simp only [exceptBind_ok, exceptPure_eq] at h
    injection h with h2
    exact ⟨ms, h2.symm⟩

/-- A successful do_resize_call produces a cluster_resize call for the
given cluster whose strict argument is strict's value with default
True. -/
lemma do_resize_call_ok_shape (cid : String) (d : ActionData) (c : RpcCall)
    (h : do_resize_call cid d = .ok c) :
    ∃ adj n mn mx ms,
      c = .clusterResize cid adj n mn mx ms (d.strict.getD true) := by
  unfold do_resize_call at h
  cases hadj : checkAdjPair d with
  | error e =>
    rw [hadj] at h
    simp [exceptBind_error] at h
  | ok u =>
    rw [hadj] at h
    simp only [exceptBind_ok] at h
    cases hmin : parseOptInt "min_size" d.min_size false with
    | error e =>
      rw [hmin] at h
      simp [exceptBind_error] at h
    | ok mn2 =>
      rw [hmin] at h
      simp only [exceptBind_ok] at h
      cases hmax : parseOptInt "max_size" d.max_size true with
      | error e =>
        rw [hmax] at h
        simp [exceptBind_error] at h
      | ok mx2 =>
        rw [hmax] at h
        simp only [exceptBind_ok] at h
        split at h
        · simp at h
        · obtain ⟨ms, hc⟩ := resizeTail_ok_shape cid d mn2 mx2 c h
          exact ⟨_, _, _, _, ms, hc⟩

/-- C7 counterexample: a resize request providing an unrecognized
adjustment_type without number raises senlin's InvalidParameter, not
webob's HTTPBadRequest (and makes no RPC call). -/
theorem do_resize_invalid_type_counterexample :
    do_resize envApi0 "c1" { adjustment_type := some "bogus" } =
      ([], .error (.invalidParameter "adjustment_type")) ∧
    isBadRequestOutcome
      (do_resize envApi0 "c1" { adjustment_type := some "bogus" }) = false :=
  ⟨rfl, rfl⟩

/-- C7 amended: for a resize request whose action value is a dict — a
recognized adjustment_type without number, a number without
adjustment_type, or (once the pairing checks pass) min_size > max_size > 0
each raise HTTPBadRequest with no cluster_resize RPC call; an unrecognized
adjustment_type instead raises InvalidParameter, likewise with no RPC
call; and a successful call with strict absent passes strict=True to the
RPC layer. -/
theorem do_resize_validation (env : ApiEnv) (cid : String) (d : ActionData)
    (hmap : d.isMap = true) :
    (∀ t, d.adjustment_type = some t → ADJUSTMENT_TYPES.contains t = true →
      d.number = none → isBadRequestOutcome (do_resize env cid d) = true) ∧
    (d.adjustment_type = none → d.number ≠ none →
      isBadRequestOutcome (do_resize env cid d) = true) ∧
    (∀ mn mx, d.min_size = some mn → d.max_size = some mx → 0 < mx →
      mx < mn →
      (d.adjustment_type = none ∧ d.number = none ∨
        ∃ t n, d.adjustment_type = some t ∧
          ADJUSTMENT_TYPES.contains t = true ∧ d.number = some n) →
      isBadRequestOutcome (do_resize env cid d) = true) ∧
    (∀ t, d.adjustment_type = some t → ADJUSTMENT_TYPES.contains t = false →
      do_resize env cid d = ([], .error (.invalidParameter "adjustment_type"))) ∧
    (∀ tr resp, do_resize env cid d = (tr, .ok resp) → d.strict = none →
      ∃ adj n mn mx ms,
        tr = [RpcCall.clusterResize cid adj n mn mx ms true]) := by
  refine ⟨?_, ?_, ?_, ?_, ?_⟩
  · intro t ht htyp hnum
    have htyp2 : t ∈ ADJUSTMENT_TYPES := by simpa using htyp
    simp [do_resize, do_resize_call, checkAdjPair, hmap, ht, htyp2, hnum,
      exceptBind_ok, exceptBind_error, exceptPure_eq, isBadRequestOutcome]
  · intro hadj hnum
    cases hn : d.number with
    | none => exact absurd hn hnum
    | some n =>
      simp [do_resize, do_resize_call, checkAdjPair, hmap, hadj, hn,
        exceptBind_ok, exceptBind_error, exceptPure_eq, isBadRequestOutcome]
  · intro mn mx hmn hmx h0mx hmxmn hpair
    have hmn0 : ¬ (mn < 0) := by omega
    have hconf : minMaxConflict (some mn) (some mx) = true := by
      simp [minMaxConflict, h0mx, hmxmn]
    rcases hpair with ⟨hadj, hnum⟩ | ⟨t, n, hadj, htyp, hnum⟩
    · simp [do_resize, do_resize_call, checkAdjPair, parseOptInt,
        parse_int_param, hmap, hadj, hnum, hmn, hmx, hmn0, hconf,
        exceptBind_ok, exceptBind_error, exceptPure_eq, isBadRequestOutcome]
    · have htyp2 : t ∈ ADJUSTMENT_TYPES := by simpa using htyp
      simp [do_resize, do_resize_call, checkAdjPair, parseOptInt,
        parse_int_param, hmap, hadj, htyp2, hnum, hmn, hmx, hmn0, hconf,
        exceptBind_ok, exceptBind_error, exceptPure_eq, isBadRequestOutcome]
  · intro t ht hcontains
    have hcon2 : ¬ (t ∈ ADJUSTMENT_TYPES) := by simpa using hcontains
    simp [do_resize, do_resize_call, checkAdjPair, hmap, ht, hcon2,
      exceptBind_ok, exceptBind_error, exceptPure_eq]
  · intro tr resp h hstrict
    unfold do_resize at h
    rw [hmap] at h
    simp only [Bool.not_true, Bool.false_eq_true, if_false] at h
    cases hr : do_resize_call cid d with
    | error e =>
      rw [hr] at h
      simp at h
    | ok c =>
      rw [hr] at h
      obtain ⟨adj, n, mn, mx, ms, hc⟩ := do_resize_call_ok_shape cid d c hr
      obtain ⟨htr, -⟩ := locResp_ok env c tr resp h
      subst hc
      rw [hstrict] at htr
      exact ⟨adj, n, mn, mx, ms, by simpa using htr⟩

/-- Witness for do_resize_validation: each validation failure and the
strict default at concrete requests. -/
theorem do_resize_validation_witness :
    isBadRequestOutcome (do_resize envApi0 "c1"
      { adjustment_type := some "EXACT_CAPACITY" }) = true ∧
    isBadRequestOutcome (do_resize envApi0 "c1" { number := some 1 }) = true ∧
    isBadRequestOutcome (do_resize envApi0 "c1"
      { min_size := some 5, max_size := some 3 }) = true ∧
    do_resize envApi0 "c1" { adjustment_type := some "bogus2" } =
      ([], .error (.invalidParameter "adjustment_type")) ∧
    ∃ adj n mn mx ms,
      [RpcCall.clusterResize "c1" none none none none none true] =
        [RpcCall.clusterResize "c1" adj n mn mx ms true] :=
  ⟨(do_resize_validation envApi0 "c1"
      { adjustment_type := some "EXACT_CAPACITY" } rfl).1
      "EXACT_CAPACITY" rfl (by decide) rfl,
   (do_resize_validation envApi0 "c1" { number := some 1 } rfl).2.1 rfl
      (by simp),
   (do_resize_validation envApi0 "c1"
      { min_size := some 5, max_size := some 3 } rfl).2.2.1 5 3 rfl rfl
      (by norm_num) (by norm_num) (Or.inl ⟨rfl, rfl⟩),
   (do_resize_validation envApi0 "c1"
      { adjustment_type := some "bogus2" } rfl).2.2.2.1 "bogus2" rfl
      (by decide),
   (do_resize_validation envApi0 "c1" {} rfl).2.2.2.2
      [RpcCall.clusterResize "c1" none none none none none true]
      { location := "/actions/a-1" } rfl rfl⟩

/-- A list with a repeated element has a strictly shorter dedup (Python:
len(set(x)) != len(x)). -/
lemma dedup_length_ne_of_not_nodup {l : List String} (h : ¬ l.Nodup) :
    l.dedup.length ≠ l.length := by
  intro hlen
  apply h
  have hsub := List.dedup_sublist l
  have heq := hsub.eq_of_length hlen
  rw [← heq]
  exact List.nodup_dedup l

/-- Two distinct originals mapped to the same replacement make the values
list of the mapping repeat. -/
lemma values_not_nodup {pairs : List (String × String)} {o1 o2 r : String}
    (hne : o1 ≠ o2) (h1 : (o1, r) ∈ pairs) (h2 : (o2, r) ∈ pairs) :
    ¬ (pairs.map Prod.snd).Nodup := by
  intro hnd
  have heq := List.inj_on_of_nodup_map hnd h1 h2 rfl
  exact hne (congrArg Prod.fst heq)

/-- The per-pair scan rejects a mapping containing an empty original or
replacement id. -/
lemma checkReplacePairs_finds {pairs : List (String × String)}
    {o n : String} (hmem : (o, n) ∈ pairs) (he : o = "" ∨ n = "") :
    ∃ msg, checkReplacePairs pairs = some msg := by
  induction pairs with
  | nil => simp at hmem
  | cons hd tl ih =>
    obtain ⟨a, b⟩ := hd
    by_cases ha : a = ""
    · exact ⟨"The original node id could not be empty.",
        by simp [checkReplacePairs, ha]⟩
    · by_cases hb : b = ""
      · exact ⟨"The replacement node id could not be empty.",
          by simp [checkReplacePairs, ha, hb]⟩
      · rcases List.mem_cons.mp hmem with heq | htl
        · exfalso
          have ho : o = a := congrArg Prod.fst heq
          have hn : n = b := congrArg Prod.snd heq
          rcases he with rfl | rfl
          · exact ha ho.symm
          · exact hb hn.symm
        · obtain ⟨msg, hm⟩ := ih htl
          exact ⟨msg, by simp [checkReplacePairs, ha, hb, hm]⟩

/-- C10: a replace_nodes request whose action value is a dict is rejected
with HTTPBadRequest and no cluster_replace_nodes RPC call when its nodes
value is missing or not a mapping, when the mapping (with distinct
original ids, as in a Python dict) sends two distinct originals to the
same replacement id, or when any original or replacement id is empty. -/
theorem replace_nodes_validation (env : ApiEnv) (cid : String)
    (d : ActionData) (hmap : d.isMap = true) :
    ((d.nodes = none ∨ d.nodes = some .other ∨
        ∃ l, d.nodes = some (.list l)) →
      isBadRequestOutcome (replace_nodes env cid d) = true) ∧
    (∀ pairs, d.nodes = some (.map pairs) →
      (pairs.map Prod.fst).Nodup →
      (∃ o1 o2 r, o1 ≠ o2 ∧ (o1, r) ∈ pairs ∧ (o2, r) ∈ pairs) →
      isBadRequestOutcome (replace_nodes env cid d) = true) ∧
    (∀ pairs o n, d.nodes = some (.map pairs) → (o, n) ∈ pairs →
      (o = "" ∨ n = "") →
      isBadRequestOutcome (replace_nodes env cid d) = true) := by
  refine ⟨?_, ?_, ?_⟩
  · intro hn
    rcases hn with hn | hn | ⟨l, hn⟩ <;>
      simp [replace_nodes, hmap, hn, isBadRequestOutcome]
  · intro pairs hp hkeys hdup
    obtain ⟨o1, o2, r, hne, h1, h2⟩ := hdup
    have hval := values_not_nodup hne h1 h2
    have hdv : hasDupValues pairs = true := by
      simp only [hasDupValues, decide_eq_true_eq]
      exact dedup_length_ne_of_not_nodup hval
    cases pairs with
    | nil => simp at h1
    | cons hd tl =>
      simp [replace_nodes, hmap, hp, hdv, isBadRequestOutcome]
  · intro pairs o n hp hmem he
    obtain ⟨msg, hck⟩ := checkReplacePairs_finds hmem he
    cases pairs with
    | nil => simp at hmem
    | cons hd tl =>
      by_cases hdv : hasDupValues (hd :: tl) = true
      · simp [replace_nodes, hmap, hp, hdv, isBadRequestOutcome]
      · have hdv2 : hasDupValues (hd :: tl) = false := by
          simpa using hdv
        simp [replace_nodes, hmap, hp, hdv2, hck, isBadRequestOutcome]

/-- Witness for replace_nodes_validation: a missing nodes value, a mapping
with a duplicated replacement, and a mapping with an empty original id. -/
theorem replace_nodes_validation_witness :
    isBadRequestOutcome (replace_nodes envApi0 "c1" { nodes := none }) =
      true ∧
    isBadRequestOutcome (replace_nodes envApi0 "c1"
      { nodes := some (.map [("n1", "r"), ("n2", "r")]) }) = true ∧
    isBadRequestOutcome (replace_nodes envApi0 "c1"
      { nodes := some (.map [("", "r1")]) }) = true :=
  ⟨(replace_nodes_validation envApi0 "c1" { nodes := none } rfl).1
      (Or.inl rfl),
   (replace_nodes_validation envApi0 "c1"
      { nodes := some (.map [("n1", "r"), ("n2", "r")]) } rfl).2.1
      [("n1", "r"), ("n2", "r")] rfl (by decide)
      ⟨"n1", "n2", "r", by decide, by decide, by decide⟩,
   (replace_nodes_validation envApi0 "c1"
      { nodes := some (.map [("", "r1")]) } rfl).2.2
      [("", "r1")] "" "r1" rfl (by decide) (Or.inl rfl)⟩

end Senlin
